import Mathlib

/-!
Shallow embedding of the sync engine of `src/decky-plugin-tonton/main.py`
(the TonTon Decky plugin): the module-level `sync_state` record, the
itemize-output progress parser inside `Plugin.sync_game`, the two-phase
sync orchestrator `Plugin.sync_game`, and the status accessor
`Plugin.get_sync_status`.  Subprocess behaviour (rsync stdout lines, exit
codes, stderr, the ACF-phase timeout) is modelled as an explicit
environment record, so the orchestrator becomes a pure state transformer.
-/

/-- Mirrors the module-level `sync_state` dict of main.py lines 22-30. -/
structure SyncState where
  syncing : Bool
  current_game : Option String
  current_file : Option String
  files_done : Nat
  files_total : Nat
  bytes_done : Nat
  bytes_total : Nat
deriving Repr, DecidableEq

/-- Initial value of `sync_state` (main.py lines 22-30). -/
def initial_sync_state : SyncState :=
  { syncing := false
    current_game := none
    current_file := none
    files_done := 0
    files_total := 0
    bytes_done := 0
    bytes_total := 0 }

/-- Connection settings read at the top of `sync_game` (main.py lines 224-227). -/
structure Settings where
  pc_ip : String
  pc_user : String
  pc_password : String
  steam_path : String
deriving Repr, DecidableEq

/-- Python `str.strip()` applied to a line, as a character list
(main.py line 279: `line = line.strip()`). -/
def stripLine (s : String) : List Char :=
  ((s.toList.dropWhile Char.isWhitespace).reverse.dropWhile Char.isWhitespace).reverse

/-- Remainder of the line after the first space: models
`line.split(' ', 1)` yielding `parts` with `len(parts) >= 2`, whose
`parts[1]` is everything after the first space character
(main.py lines 288-289 and 297-298).  `none` when the line holds no space. -/
def afterFirstSpace : List Char → Option (List Char)
  | [] => none
  | c :: cs => if c = ' ' then some cs else afterFirstSpace cs

/-- Two-character itemize-code check: models `line.startswith('ab')` for a
two-character code (main.py lines 286 and 295). -/
def startsTwo (cs : List Char) (a b : Char) : Bool :=
  match cs with
  | c1 :: c2 :: _ => a = c1 && b = c2
  | _ => false

/-- One classified itemize-output event, as in the loop body of main.py
lines 278-299.  `skipped` covers the empty line (`continue`), a line with a
recognized code but no space separator (`len(parts) < 2`), and every
unrecognized line: all of them leave the loop state unchanged. -/
inductive ItemEvent where
  | fileTransferred (path : String)
  | directoryNoticed (path : String)
  | skipped
deriving Repr, DecidableEq

/-- Classification of one raw stdout line, following main.py lines 279-299:
strip, skip the empty line, file codes are the two-character line-leading
codes of `>f`, `<f`, `cf`; directory codes `>d`, `cd`; the path is
everything after the first space. -/
def classifyLine (raw : String) : ItemEvent :=
  if startsTwo (stripLine raw) '>' 'f' || startsTwo (stripLine raw) '<' 'f'
      || startsTwo (stripLine raw) 'c' 'f' then
    match afterFirstSpace (stripLine raw) with
    | some rest => ItemEvent.fileTransferred (String.mk rest)
    | none => ItemEvent.skipped
  else if startsTwo (stripLine raw) '>' 'd' || startsTwo (stripLine raw) 'c' 'd' then
    match afterFirstSpace (stripLine raw) with
    | some rest => ItemEvent.directoryNoticed (String.mk rest)
    | none => ItemEvent.skipped
  else ItemEvent.skipped

/-- State carried by the stdout reading loop of main.py lines 274-299: the
global `sync_state`, the local `files_synced` counter, the local
`current_file` variable, and the paths logged as `Directory: ...`. -/
structure LoopState where
  state : SyncState
  files_synced : Nat
  current_file : Option String
  dir_notices : List String
deriving Repr, DecidableEq

/-- One iteration of the stdout loop (main.py lines 278-299): a file line
updates `current_file` (local and in `sync_state`), increments
`files_synced` and writes it into `sync_state["files_done"]`; a directory
line is logged; everything else leaves the state unchanged. -/
def itemizeStep (ls : LoopState) (raw : String) : LoopState :=
  match classifyLine raw with
  | ItemEvent.fileTransferred p =>
      { ls with
        current_file := some p
        files_synced := ls.files_synced + 1
        state := { ls.state with
                   current_file := some p
                   files_done := ls.files_synced + 1 } }
  | ItemEvent.directoryNoticed p => { ls with dir_notices := ls.dir_notices ++ [p] }
  | ItemEvent.skipped => ls

/-- A line that the loop counts: classified as a transferred file. -/
def isCountedFileLine (raw : String) : Bool :=
  match classifyLine raw with
  | ItemEvent.fileTransferred _ => true
  | _ => false

/-- Spec-modelled, for refinement comparison only.  The spec counts "lines
whose leading two-character prefix is one of the three recognized
file-transferred codes", with no well-formedness condition on the rest of
the line. -/
def prefixFileCount (lines : List String) : Nat :=
  lines.countP fun l =>
    startsTwo l.toList '>' 'f' || startsTwo l.toList '<' 'f'
      || startsTwo l.toList 'c' 'f'

/-- Loop state at the start of the stdout loop, over a given `sync_state`
whose progress fields have just been reset (main.py lines 240-245, 274-275). -/
def parserInit (st : SyncState) : LoopState :=
  { state := { st with
               current_file := none
               files_done := 0
               files_total := 0 }
    files_synced := 0
    current_file := none
    dir_notices := [] }

/-- Outcome of the bulk-content rsync subprocess (main.py lines 266-308):
its stdout lines, exit status and captured stderr. -/
structure ContentRun where
  stdout_lines : List String
  returncode : Int
  stderr : String
deriving Repr, DecidableEq

/-- Outcome of the ACF rsync subprocess (main.py line 328): it either
completes with an exit status and stderr, or exceeds its 60 second budget,
raising `subprocess.TimeoutExpired`. -/
inductive AcfRun where
  | completes (returncode : Int) (stderr : String)
  | timesOut
deriving Repr, DecidableEq

/-- The subprocess environment one `sync_game` call runs against. -/
structure SyncEnv where
  content : ContentRun
  acf : AcfRun
deriving Repr, DecidableEq

/-- The dict returned by `sync_game`: `success`, and optionally `message`
(success path, main.py line 339) or `error` (failure paths). -/
structure GameSyncResult where
  success : Bool
  message : Option String
  error : Option String
deriving Repr, DecidableEq

/-- Everything observable about one `sync_game` call: the returned dict,
the final `sync_state`, how many times the ACF rsync was invoked, the
directory notices logged, and the warning-level log lines emitted. -/
structure SyncOutcome where
  result : GameSyncResult
  state : SyncState
  acf_invocations : Nat
  dir_notices : List String
  warnings : List String
deriving Repr, DecidableEq

/-- The success message of main.py line 339, built from the game name and
the final `files_synced` count. -/
def syncMessage (game_name : String) (files_synced : Nat) : String :=
  "Synced " ++ game_name ++ " (" ++ toString files_synced ++ " files)"

/-- The ACF manifest file name of main.py line 315. -/
def acfName (app_id : String) : String :=
  "appmanifest_" ++ app_id ++ ".acf"

/-- The warning logged on ACF failure (main.py line 331). -/
def acfWarning (stderr : String) : String :=
  "Failed to sync ACF: " ++ stderr

/-- The `sync_state` reset at sync start (main.py lines 240-245). -/
def startState (pre : SyncState) (game_name : String) : SyncState :=
  { pre with
    syncing := true
    current_game := some game_name
    current_file := none
    files_done := 0
    files_total := 0 }

/-- The stdout loop of main.py lines 274-299 run over the whole content
subprocess output. -/
def contentFold (env : SyncEnv) (st1 : SyncState) : LoopState :=
  env.content.stdout_lines.foldl itemizeStep
    { state := st1
      files_synced := 0
      current_file := none
      dir_notices := [] }

/-- Everything after `process.wait()` (main.py lines 302-347): the content
exit-status check, the ACF phase guarded by `if app_id and app_id !=
"unknown"`, and the terminal updates of `sync_state`. -/
def afterContent (env : SyncEnv) (ls : LoopState) (game_name app_id : String) :
    SyncOutcome :=
  if env.content.returncode ≠ 0 then
    { result := { success := false
                  message := none
                  error := some ("rsync failed: " ++ env.content.stderr) }
      state := { ls.state with syncing := false }
      acf_invocations := 0
      dir_notices := ls.dir_notices
      warnings := [] }
  else if app_id ≠ "" ∧ app_id ≠ "unknown" then
    match env.acf with
    | AcfRun.timesOut =>
        { result := { success := false
                      message := none
                      error := some ("Sync timeout") }
          state := { ls.state with
                     current_file := some (acfName app_id)
                     syncing := false }
          acf_invocations := 1
          dir_notices := ls.dir_notices
          warnings := [] }
    | AcfRun.completes rc err =>
        { result := { success := true
                      message := some (syncMessage game_name ls.files_synced)
                      error := none }
          state := { ls.state with
                     current_file := none
                     syncing := false }
          acf_invocations := 1
          dir_notices := ls.dir_notices
          warnings := if rc ≠ 0 then [acfWarning err] else [] }
  else
    { result := { success := true
                  message := some (syncMessage game_name ls.files_synced)
                  error := none }
      state := { ls.state with
                 current_file := none
                 syncing := false }
      acf_invocations := 0
      dir_notices := ls.dir_notices
      warnings := [] }

/-- `Plugin.sync_game` (main.py lines 215-347) as a pure function of the
settings, the subprocess environment, the pre-call `sync_state`, and the
two arguments.  The configuration check of lines 229-230 happens before
any state change; then lines 240-245 reset the state, the content phase
runs, and `afterContent` finishes the call. -/
def sync_game (cfg : Settings) (env : SyncEnv) (pre : SyncState)
    (game_name app_id : String) : SyncOutcome :=
  if cfg.pc_ip = "" ∨ cfg.pc_user = "" then
    { result := { success := false
                  message := none
                  error := some ("Configure PC connection first") }
      state := pre
      acf_invocations := 0
      dir_notices := []
      warnings := [] }
  else
    afterContent env (contentFold env (startState pre game_name)) game_name app_id

/-- The dict returned by `Plugin.get_sync_status` (main.py lines 349-358):
exactly five fields, omitting the byte counters of `sync_state`. -/
structure SyncStatusSnapshot where
  syncing : Bool
  current_game : Option String
  current_file : Option String
  files_done : Nat
  files_total : Nat
deriving Repr, DecidableEq

/-- `Plugin.get_sync_status` (main.py lines 349-358). -/
def get_sync_status (s : SyncState) : SyncStatusSnapshot :=
  { syncing := s.syncing
    current_game := s.current_game
    current_file := s.current_file
    files_done := s.files_done
    files_total := s.files_total }

/-- One externally triggered state-mutating operation: a `sync_game` call
with its settings, environment and arguments.  `get_sync_status` is a pure
read and mutates nothing. -/
structure Op where
  cfg : Settings
  env : SyncEnv
  game_name : String
  app_id : String

/-- Effect of one operation on the shared `sync_state`. -/
def applyOp (s : SyncState) (op : Op) : SyncState :=
  (sync_game op.cfg op.env s op.game_name op.app_id).state

/-- The shared `sync_state` after a sequence of operations. -/
def runOps (s : SyncState) (ops : List Op) : SyncState :=
  ops.foldl applyOp s

/-! ### Helper lemmas about the parsing loop -/

theorem itemizeStep_files_synced (ls : LoopState) (l : String) :
    (itemizeStep ls l).files_synced
      = ls.files_synced + (if isCountedFileLine l then 1 else 0) := by
  unfold itemizeStep isCountedFileLine
  cases classifyLine l <;> simp

theorem itemizeStep_files_done (ls : LoopState) (l : String)
    (h : ls.state.files_done = ls.files_synced) :
    (itemizeStep ls l).state.files_done = (itemizeStep ls l).files_synced := by
  unfold itemizeStep
  cases classifyLine l <;> simp [h]

theorem itemizeStep_files_total (ls : LoopState) (l : String) :
    (itemizeStep ls l).state.files_total = ls.state.files_total := by
  unfold itemizeStep
  cases classifyLine l <;> simp

theorem itemizeStep_current_game (ls : LoopState) (l : String) :
    (itemizeStep ls l).state.current_game = ls.state.current_game := by
  unfold itemizeStep
  cases classifyLine l <;> simp

theorem fold_files_synced (lines : List String) (ls : LoopState) :
    (lines.foldl itemizeStep ls).files_synced
      = ls.files_synced + lines.countP isCountedFileLine := by
  induction lines generalizing ls with
  | nil => simp
  | cons l rest ih =>
      rw [List.foldl_cons, ih, itemizeStep_files_synced, List.countP_cons]
      by_cases h : isCountedFileLine l
      · simp only [h, if_true]
        omega
      · simp [h]

theorem fold_files_done (lines : List String) (ls : LoopState)
    (h : ls.state.files_done = ls.files_synced) :
    (lines.foldl itemizeStep ls).state.files_done
      = (lines.foldl itemizeStep ls).files_synced := by
  induction lines generalizing ls with
  | nil => simpa using h
  | cons l rest ih =>
      rw [List.foldl_cons]
      exact ih _ (itemizeStep_files_done ls l h)

theorem fold_files_total (lines : List String) (ls : LoopState) :
    (lines.foldl itemizeStep ls).state.files_total = ls.state.files_total := by
  induction lines generalizing ls with
  | nil => rfl
  | cons l rest ih =>
      rw [List.foldl_cons, ih, itemizeStep_files_total]

theorem fold_current_game (lines : List String) (ls : LoopState) :
    (lines.foldl itemizeStep ls).state.current_game = ls.state.current_game := by
  induction lines generalizing ls with
  | nil => rfl
  | cons l rest ih =>
      rw [List.foldl_cons, ih, itemizeStep_current_game]

theorem contentFold_files_synced (env : SyncEnv) (st1 : SyncState) :
    (contentFold env st1).files_synced
      = env.content.stdout_lines.countP isCountedFileLine := by
  unfold contentFold
  rw [fold_files_synced]
  simp

theorem contentFold_files_done (env : SyncEnv) (pre : SyncState) (gn : String) :
    (contentFold env (startState pre gn)).state.files_done
      = env.content.stdout_lines.countP isCountedFileLine := by
  unfold contentFold
  rw [fold_files_done _ _ rfl, fold_files_synced]
  simp

theorem contentFold_current_game (env : SyncEnv) (pre : SyncState) (gn : String) :
    (contentFold env (startState pre gn)).state.current_game = some gn := by
  unfold contentFold
  rw [fold_current_game]
  rfl

theorem contentFold_files_total (env : SyncEnv) (pre : SyncState) (gn : String) :
    (contentFold env (startState pre gn)).state.files_total = 0 := by
  unfold contentFold
  rw [fold_files_total]
  rfl

/-! ### Helper lemmas about the post-content phase -/

theorem afterContent_syncing (env : SyncEnv) (ls : LoopState) (gn aid : String) :
    (afterContent env ls gn aid).state.syncing = false := by
  unfold afterContent
  split
  · rfl
  · split
    · cases env.acf <;> rfl
    · rfl

theorem afterContent_files_done (env : SyncEnv) (ls : LoopState) (gn aid : String) :
    (afterContent env ls gn aid).state.files_done = ls.state.files_done := by
  unfold afterContent
  split
  · rfl
  · split
    · cases env.acf <;> rfl
    · rfl

theorem afterContent_current_game (env : SyncEnv) (ls : LoopState) (gn aid : String) :
    (afterContent env ls gn aid).state.current_game = ls.state.current_game := by
  unfold afterContent
  split
  · rfl
  · split
    · cases env.acf <;> rfl
    · rfl

theorem afterContent_files_total (env : SyncEnv) (ls : LoopState) (gn aid : String) :
    (afterContent env ls gn aid).state.files_total = ls.state.files_total := by
  unfold afterContent
  split
  · rfl
  · split
    · cases env.acf <;> rfl
    · rfl

theorem afterContent_success_current_file (env : SyncEnv) (ls : LoopState)
    (gn aid : String) (h : (afterContent env ls gn aid).result.success = true) :
    (afterContent env ls gn aid).state.current_file = none := by
  unfold afterContent at h ⊢
  by_cases h1 : env.content.returncode ≠ 0
  · rw [if_pos h1] at h
    simp at h
  · rw [if_neg h1] at h ⊢
    by_cases h2 : aid ≠ "" ∧ aid ≠ "unknown"
    · rw [if_pos h2] at h ⊢
      cases hacf : env.acf with
      | completes rc err => rfl
      | timesOut =>
          rw [hacf] at h
          simp at h
    · rw [if_neg h2]

theorem sync_game_config_present (cfg : Settings) (env : SyncEnv) (pre : SyncState)
    (gn aid : String) (hip : cfg.pc_ip ≠ "") (hu : cfg.pc_user ≠ "") :
    sync_game cfg env pre gn aid
      = afterContent env (contentFold env (startState pre gn)) gn aid := by
  unfold sync_game
  rw [if_neg (not_or.mpr ⟨hip, hu⟩)]

theorem sync_game_files_total (cfg : Settings) (env : SyncEnv) (pre : SyncState)
    (gn aid : String) (h : pre.files_total = 0) :
    (sync_game cfg env pre gn aid).state.files_total = 0 := by
  unfold sync_game
  split
  · exact h
  · rw [afterContent_files_total, contentFold_files_total]

theorem runOps_files_total (ops : List Op) (s : SyncState) (h : s.files_total = 0) :
    (runOps s ops).files_total = 0 := by
  induction ops generalizing s with
  | nil => exact h
  | cons op rest ih =>
      exact ih (applyOp s op)
        (sync_game_files_total op.cfg op.env s op.game_name op.app_id h)

/-! ### Concrete fixtures used by witnesses and counterexamples -/

/-- A settings record with the connection configuration present. -/
def cfgOk : Settings :=
  { pc_ip := "192.168.1.50"
    pc_user := "deck"
    pc_password := "pw"
    steam_path := "~/.steam/steam" }

/-- Both subprocesses succeed; the content transfer reports one file. -/
def envContentOk : SyncEnv :=
  { content := { stdout_lines := [">f+++++++++ data/a.bin"]
                 returncode := 0
                 stderr := "" }
    acf := AcfRun.completes 0 ("") }

/-- The content transfer reports one file and then exits non-zero. -/
def envContentFail : SyncEnv :=
  { content := { stdout_lines := [">f+++++++++ data/a.bin"]
                 returncode := 1
                 stderr := "ssh: connection refused" }
    acf := AcfRun.completes 0 ("") }

/-- The content transfer succeeds; the ACF transfer exits non-zero. -/
def envAcfFail : SyncEnv :=
  { content := { stdout_lines := [">f+++++++++ data/a.bin"]
                 returncode := 0
                 stderr := "" }
    acf := AcfRun.completes 23 ("rsync: no such file") }

/-- The content transfer succeeds with no output lines. -/
def envEmptyOk : SyncEnv :=
  { content := { stdout_lines := []
                 returncode := 0
                 stderr := "" }
    acf := AcfRun.completes 0 ("") }

/-- A `sync_state` as observed in the middle of an in-flight sync. -/
def preInFlight : SyncState :=
  { syncing := true
    current_game := some ("GameA")
    current_file := some ("old.bin")
    files_done := 5
    files_total := 0
    bytes_done := 0
    bytes_total := 0 }

/-- The end-to-end example line sequence of the spec. -/
def exampleLines : List String :=
  [">f+++++++++ data/a.bin", "cd+++++++++ data/", ">f+++++++++ data/b.bin", ""]

/-! ### Claim theorems -/

/-- Claim C1, counterexample: with the configuration present, a `sync_game`
call made while `sync_state.syncing = true` (an in-flight sync holding
`files_done = 5`) is not rejected with any error: it runs to a successful
result, zeroes `files_done`, and overwrites `current_game` — the code has
no mutual-exclusion check. -/
theorem sync_game_second_call_not_rejected_cex :
    preInFlight.syncing = true
    ∧ preInFlight.files_done = 5
    ∧ (sync_game cfgOk envEmptyOk preInFlight ("GameB") ("unknown")).result.success = true
    ∧ (sync_game cfgOk envEmptyOk preInFlight ("GameB") ("unknown")).result.error = none
    ∧ (sync_game cfgOk envEmptyOk preInFlight ("GameB") ("unknown")).state.files_done = 0
    ∧ (sync_game cfgOk envEmptyOk preInFlight ("GameB") ("unknown")).state.current_game
        = some ("GameB") := by
  decide

/-- Claim C1, amended: a `sync_game` call issued while `syncing = true` is
not rejected — with the configuration present it behaves exactly as a call
from the idle state, and the shared counters are overwritten by the new
run (`files_done` becomes the new run's transferred-file count). -/
theorem sync_game_ignores_inflight_flag (cfg : Settings) (env : SyncEnv)
    (pre : SyncState) (gn aid : String)
    (hip : cfg.pc_ip ≠ "") (hu : cfg.pc_user ≠ "") :
    sync_game cfg env pre gn aid
      = sync_game cfg env { pre with syncing := false } gn aid
    ∧ (sync_game cfg env pre gn aid).state.files_done
        = env.content.stdout_lines.countP isCountedFileLine := by
  constructor
  · rw [sync_game_config_present cfg env pre gn aid hip hu,
        sync_game_config_present cfg env _ gn aid hip hu]
    have h : startState pre gn = startState { pre with syncing := false } gn := by
      cases pre
      rfl
    rw [h]
  · rw [sync_game_config_present cfg env pre gn aid hip hu, afterContent_files_done,
        contentFold_files_done]

/-- Claim C1, witness for the amended theorem at a concrete in-flight state. -/
theorem sync_game_ignores_inflight_flag_witness :
    sync_game cfgOk envEmptyOk preInFlight ("GameB") ("unknown")
      = sync_game cfgOk envEmptyOk { preInFlight with syncing := false } ("GameB") ("unknown")
    ∧ (sync_game cfgOk envEmptyOk preInFlight ("GameB") ("unknown")).state.files_done
        = envEmptyOk.content.stdout_lines.countP isCountedFileLine :=
  sync_game_ignores_inflight_flag cfgOk envEmptyOk preInFlight ("GameB") ("unknown")
    (by decide) (by decide)

/-- Claim C2, counterexample: the malformed line `">f+++++++++"` (no space
separator) carries a recognized two-character file code, so the claimed
count is 1, yet the loop leaves `files_done` at 0. -/
theorem files_done_prefix_count_cex :
    ([">f+++++++++"].foldl itemizeStep (parserInit initial_sync_state)).state.files_done = 0
    ∧ prefixFileCount [">f+++++++++"] = 1
    ∧ ([">f+++++++++"].foldl itemizeStep (parserInit initial_sync_state)).state.files_done
        ≠ prefixFileCount [">f+++++++++"] := by
  decide

/-- Claim C2, amended: for every finite sequence of lines, the final
`files_done` equals the number of lines classified `FileTransferred`: the
lines whose stripped text carries one of the three file codes AND a space
separator.  A recognized-prefix line without a space separator is skipped
without counting; the parser is a total function, so no line crashes it. -/
theorem files_done_counts_separated_file_lines (lines : List String) (st : SyncState) :
    (lines.foldl itemizeStep (parserInit st)).state.files_done
      = lines.countP isCountedFileLine
    ∧ (lines.foldl itemizeStep (parserInit st)).files_synced
      = lines.countP isCountedFileLine := by
  constructor
  · rw [fold_files_done _ _ rfl, fold_files_synced]
    simp [parserInit]
  · rw [fold_files_synced]
    simp [parserInit]

/-- Claim C3: when the content transfer exits 0 and the ACF transfer exits
non-zero, `sync_game` returns success with the transferred-file count in
its message and no error field; the ACF failure surfaces only as a
warning-level log line, and the ACF rsync was invoked exactly once. -/
theorem acf_failure_soft (cfg : Settings) (env : SyncEnv) (pre : SyncState)
    (gn aid : String) (rc : Int) (err : String)
    (hip : cfg.pc_ip ≠ "") (hu : cfg.pc_user ≠ "")
    (hc : env.content.returncode = 0)
    (ha1 : aid ≠ "") (ha2 : aid ≠ "unknown")
    (hacf : env.acf = AcfRun.completes rc err) (hrc : rc ≠ 0) :
    (sync_game cfg env pre gn aid).result.success = true
    ∧ (sync_game cfg env pre gn aid).result.error = none
    ∧ (sync_game cfg env pre gn aid).result.message
        = some (syncMessage gn (env.content.stdout_lines.countP isCountedFileLine))
    ∧ (sync_game cfg env pre gn aid).warnings = [acfWarning err]
    ∧ (sync_game cfg env pre gn aid).acf_invocations = 1 := by
  rw [sync_game_config_present cfg env pre gn aid hip hu]
  unfold afterContent
  rw [if_neg (not_not_intro hc), if_pos ⟨ha1, ha2⟩, hacf]
  refine ⟨rfl, rfl, ?_, ?_, rfl⟩
  · simp [contentFold_files_synced]
  · simp [hrc]

/-- Claim C3, witness at a concrete environment with ACF exit status 23. -/
theorem acf_failure_soft_witness :
    (sync_game cfgOk envAcfFail initial_sync_state ("GameB") ("42")).result.success = true
    ∧ (sync_game cfgOk envAcfFail initial_sync_state ("GameB") ("42")).result.error = none
    ∧ (sync_game cfgOk envAcfFail initial_sync_state ("GameB") ("42")).result.message
        = some (syncMessage ("GameB")
            (envAcfFail.content.stdout_lines.countP isCountedFileLine))
    ∧ (sync_game cfgOk envAcfFail initial_sync_state ("GameB") ("42")).warnings
        = [acfWarning ("rsync: no such file")]
    ∧ (sync_game cfgOk envAcfFail initial_sync_state ("GameB") ("42")).acf_invocations = 1 :=
  acf_failure_soft cfgOk envAcfFail initial_sync_state ("GameB") ("42") 23
    ("rsync: no such file") (by decide) (by decide) rfl (by decide) (by decide) rfl
    (by decide)

/-- Claim C4: when the content transfer exits non-zero, `sync_game` returns
failure whose error text surfaces the captured stderr (prefixed with
`rsync failed: `), and the ACF rsync is never invoked. -/
theorem content_failure_hard (cfg : Settings) (env : SyncEnv) (pre : SyncState)
    (gn aid : String) (hip : cfg.pc_ip ≠ "") (hu : cfg.pc_user ≠ "")
    (hrc : env.content.returncode ≠ 0) :
    (sync_game cfg env pre gn aid).result.success = false
    ∧ (sync_game cfg env pre gn aid).result.error
        = some ("rsync failed: " ++ env.content.stderr)
    ∧ (sync_game cfg env pre gn aid).acf_invocations = 0 := by
  rw [sync_game_config_present cfg env pre gn aid hip hu]
  unfold afterContent
  rw [if_pos hrc]
  exact ⟨rfl, rfl, rfl⟩

/-- Claim C4, witness at a concrete failing content transfer. -/
theorem content_failure_hard_witness :
    (sync_game cfgOk envContentFail initial_sync_state ("GameB") ("42")).result.success = false
    ∧ (sync_game cfgOk envContentFail initial_sync_state ("GameB") ("42")).result.error
        = some ("rsync failed: " ++ envContentFail.content.stderr)
    ∧ (sync_game cfgOk envContentFail initial_sync_state ("GameB") ("42")).acf_invocations = 0 :=
  content_failure_hard cfgOk envContentFail initial_sync_state ("GameB") ("42")
    (by decide) (by decide) (by decide)

/-- Claim C5, counterexample: a content transfer that reports a file and
then exits non-zero ends with `syncing = false` but `current_file` still
holding the last file — the failure path of main.py lines 304-308 does not
clear `current_file`. -/
theorem current_file_not_cleared_on_failure_cex :
    (sync_game cfgOk envContentFail initial_sync_state ("GameB") ("42")).state.syncing = false
    ∧ (sync_game cfgOk envContentFail initial_sync_state ("GameB") ("42")).state.current_file
        = some ("data/a.bin")
    ∧ (sync_game cfgOk envContentFail initial_sync_state ("GameB") ("42")).state.current_file
        ≠ none := by
  decide

/-- Claim C5, amended: with the configuration present, every terminal
outcome of `sync_game` leaves `syncing = false`; `current_file` is cleared
on the success paths, while the failure paths leave it at its last
observed value. -/
theorem terminal_state_idle (cfg : Settings) (env : SyncEnv) (pre : SyncState)
    (gn aid : String) (hip : cfg.pc_ip ≠ "") (hu : cfg.pc_user ≠ "") :
    (sync_game cfg env pre gn aid).state.syncing = false
    ∧ ((sync_game cfg env pre gn aid).result.success = true →
        (sync_game cfg env pre gn aid).state.current_file = none) := by
  rw [sync_game_config_present cfg env pre gn aid hip hu]
  exact ⟨afterContent_syncing _ _ _ _, afterContent_success_current_file _ _ _ _⟩

/-- Claim C5, witness for the amended theorem at a concrete environment. -/
theorem terminal_state_idle_witness :
    (sync_game cfgOk envAcfFail initial_sync_state ("GameB") ("42")).state.syncing = false
    ∧ ((sync_game cfgOk envAcfFail initial_sync_state ("GameB") ("42")).result.success = true →
        (sync_game cfgOk envAcfFail initial_sync_state ("GameB") ("42")).state.current_file
          = none) :=
  terminal_state_idle cfgOk envAcfFail initial_sync_state ("GameB") ("42")
    (by decide) (by decide)

/-- Claim C6, counterexample: after a successful sync from the initial
state, `syncing = false` yet `current_game` still holds the synced game's
name — `sync_game` never resets `current_game` to `None`. -/
theorem current_game_persists_after_sync_cex :
    (sync_game cfgOk envContentOk initial_sync_state ("GameB") ("unknown")).state.syncing = false
    ∧ (sync_game cfgOk envContentOk initial_sync_state ("GameB") ("unknown")).state.current_game
        = some ("GameB")
    ∧ (sync_game cfgOk envContentOk initial_sync_state ("GameB") ("unknown")).state.current_game
        ≠ none := by
  decide

/-- Claim C6, amended: `current_game` is set to the requested game name at
sync start and kept through every terminal path (configuration present),
so after a completed call it holds the most recent game's identifier; it
is `None` only before the first configured sync. -/
theorem current_game_set_to_requested (cfg : Settings) (env : SyncEnv) (pre : SyncState)
    (gn aid : String) (hip : cfg.pc_ip ≠ "") (hu : cfg.pc_user ≠ "") :
    (sync_game cfg env pre gn aid).state.current_game = some gn := by
  rw [sync_game_config_present cfg env pre gn aid hip hu, afterContent_current_game,
      contentFold_current_game]

/-- Claim C6, witness for the amended theorem at a concrete input. -/
theorem current_game_set_to_requested_witness :
    (sync_game cfgOk envContentOk initial_sync_state ("GameB") ("unknown")).state.current_game
      = some ("GameB") :=
  current_game_set_to_requested cfgOk envContentOk initial_sync_state ("GameB") ("unknown")
    (by decide) (by decide)

/-- Claim C7: a call with app id `"unknown"` never invokes the ACF rsync,
and still returns success whenever the content transfer exits 0. -/
theorem unknown_app_id_skips_acf (cfg : Settings) (env : SyncEnv) (pre : SyncState)
    (gn : String) (hip : cfg.pc_ip ≠ "") (hu : cfg.pc_user ≠ "") :
    (sync_game cfg env pre gn ("unknown")).acf_invocations = 0
    ∧ (env.content.returncode = 0 →
        (sync_game cfg env pre gn ("unknown")).result.success = true) := by
  rw [sync_game_config_present cfg env pre gn _ hip hu]
  unfold afterContent
  constructor
  · by_cases h1 : env.content.returncode ≠ 0
    · rw [if_pos h1]
    · rw [if_neg h1, if_neg (fun h => h.2 rfl)]
  · intro hc
    rw [if_neg (not_not_intro hc), if_neg (fun h => h.2 rfl)]

/-- Claim C7, witness at a concrete succeeding content transfer. -/
theorem unknown_app_id_skips_acf_witness :
    (sync_game cfgOk envContentOk initial_sync_state ("Game X") ("unknown")).acf_invocations = 0
    ∧ (envContentOk.content.returncode = 0 →
        (sync_game cfgOk envContentOk initial_sync_state ("Game X") ("unknown")).result.success
          = true) :=
  unknown_app_id_skips_acf cfgOk envContentOk initial_sync_state ("Game X")
    (by decide) (by decide)

/-- Claim C8: the parser performs no deduplication — processing the same
`FileTransferred` line twice increments `files_done` twice, ending at 2. -/
theorem no_deduplication (L : String) (st : SyncState)
    (h : isCountedFileLine L = true) :
    ([L, L].foldl itemizeStep (parserInit st)).state.files_done = 2 := by
  rw [fold_files_done _ _ rfl, fold_files_synced]
  simp [List.countP_cons, h, parserInit]

/-- Claim C8, witness at the concrete line `">f+++++++++ data/a.bin"`. -/
theorem no_deduplication_witness :
    ([">f+++++++++ data/a.bin", ">f+++++++++ data/a.bin"].foldl itemizeStep
        (parserInit initial_sync_state)).state.files_done = 2 :=
  no_deduplication (">f+++++++++ data/a.bin") initial_sync_state (by decide)

/-- Claim C9: the spec's end-to-end example sequence yields `files_done = 2`,
`current_file = "data/b.bin"`, and exactly one directory notice for
`"data/"`. -/
theorem itemize_example_run :
    ((exampleLines).foldl itemizeStep (parserInit initial_sync_state)).state.files_done = 2
    ∧ ((exampleLines).foldl itemizeStep (parserInit initial_sync_state)).state.current_file
        = some ("data/b.bin")
    ∧ ((exampleLines).foldl itemizeStep (parserInit initial_sync_state)).dir_notices
        = ["data/"] := by
  decide

/-- Claim C10: `get_sync_status` returns exactly the five fields
`syncing`, `current_game`, `current_file`, `files_done`, `files_total`
(the snapshot structure has no byte fields, and the snapshot is unchanged
by any values of `bytes_done`/`bytes_total`), and `files_total` is 0 after
any sequence of `sync_game` calls from the initial state. -/
theorem get_sync_status_five_fields (ops : List Op) (s : SyncState) (b1 b2 : Nat) :
    get_sync_status s
      = { syncing := s.syncing
          current_game := s.current_game
          current_file := s.current_file
          files_done := s.files_done
          files_total := s.files_total }
    ∧ get_sync_status { s with bytes_done := b1, bytes_total := b2 } = get_sync_status s
    ∧ (get_sync_status (runOps initial_sync_state ops)).files_total = 0 := by
  refine ⟨rfl, rfl, ?_⟩
  exact runOps_files_total ops initial_sync_state rfl
